import Mathlib

/-!
Doppelganger Engine — verification of `src/main.py`.

Shallow embedding of the ZIP-code "doppelganger" lookup service:
the demographic-record extractor (`fetch_census_demographics` with its
nested `get_value` / `get_string_value` helpers), the two generative
sub-calls (`get_gemini_profile`, `find_doppelgangers`) with their derived
percentage computations, and the `/find-twin` orchestrator
(`handle_find_twin`) with its Firestore read-through cache.

Modelling conventions:
* Upstream response cells are JSON strings or JSON nulls (`Option String`),
  per the upstream contract (a 2-D array of strings); a transport/HTTP
  failure, a JSON-decode failure, or a payload that is not an array of rows
  is modelled as the absent response `none`.
* Python integers are unbounded, so numeric record fields are `Int`.
* `float()` values are carried exactly (`PyFloat` with a rational numeric
  case); binary floating-point rounding is irrelevant to every property
  proved here, which concern only parse success/failure and integer fields.
* A raised-and-uncaught Python exception is modelled by the `none` branch of
  the surrounding `Option`-valued function, exactly where the source's
  `try`/`except` structure routes it.
* Effects of the handler (outbound calls, cache store) are passed in as an
  explicit `World`; each outbound call is attempted exactly once, matching
  the source (no retry anywhere).
-/

/-- A cell of the upstream tabular response: a JSON string (`some s`) or a
JSON null (`none`).  Rows of the payload are lists of cells. -/
abbrev Cell := Option String

/-- One run of decimal digits in Python's number grammar (`digitpart`):
single underscores may appear between digits (`int("1_000")` is legal, a
leading, trailing or doubled underscore is not).  Accumulates the value and
the count of digits consumed; the whole remaining list must be consumed. -/
def digitRunAux : Nat → Nat → List Char → Option (Nat × Nat)
  | acc, cnt, [] => some (acc, cnt)
  | acc, cnt, '_' :: c :: cs =>
    if c.isDigit then digitRunAux (acc * 10 + (c.toNat - '0'.toNat)) (cnt + 1) cs else none
  | acc, cnt, c :: cs =>
    if c.isDigit then digitRunAux (acc * 10 + (c.toNat - '0'.toNat)) (cnt + 1) cs else none

/-- A non-empty digit run (first character must be a digit). -/
def digitRun : List Char → Option (Nat × Nat)
  | [] => none
  | c :: cs => if c.isDigit then digitRunAux (c.toNat - '0'.toNat) 1 cs else none

/-- Strip leading and trailing whitespace from a character list, as Python's
number conversions do to their string argument before parsing. -/
def stripChars (l : List Char) : List Char :=
  ((l.dropWhile Char.isWhitespace).reverse.dropWhile Char.isWhitespace).reverse

/-- Python `int(s)` on a string: optional surrounding whitespace, an optional
sign, then a digit run.  `none` models a raised `ValueError` — notably on
`""`, `"abc"` and on decimal-formatted strings such as `"25.5"`; `int()`
never rounds or truncates a string argument. -/
def pyInt (s : String) : Option Int :=
  match stripChars s.toList with
  | '+' :: rest => (digitRun rest).map fun p => (p.1 : Int)
  | '-' :: rest => (digitRun rest).map fun p => -(p.1 : Int)
  | rest => (digitRun rest).map fun p => (p.1 : Int)

/-- The value of a successfully parsed Python float: the numeric case
carries the exact decimal value as a rational (binary rounding is not
observable by any property proved in this development), plus the special
infinity/NaN spellings `float()` also accepts. -/
inductive PyFloat where
  | num (q : ℚ)
  | inf (neg : Bool)
  | nan
deriving DecidableEq

/-- Split a character list at the first character satisfying `p`; the second
component is `none` when no such character occurs. -/
def splitAtChar (p : Char → Bool) : List Char → List Char × Option (List Char)
  | [] => ([], none)
  | c :: cs =>
    if p c then ([], some cs)
    else
      let r := splitAtChar p cs
      (c :: r.1, r.2)

/-- The mantissa of a Python float literal: `digits`, `digits.`,
`digits.digits`, or `.digits` (at least one digit overall). -/
def parseMantissa (ip : List Char) (fpOpt : Option (List Char)) : Option ℚ :=
  match fpOpt with
  | none => (digitRun ip).map fun p => (p.1 : ℚ)
  | some fp =>
    match ip, fp with
    | [], [] => none
    | [], _ => (digitRun fp).map fun p => (p.1 : ℚ) / (10 : ℚ) ^ p.2
    | _, [] => (digitRun ip).map fun p => (p.1 : ℚ)
    | _, _ =>
      match digitRun ip, digitRun fp with
      | some pi, some pf => some ((pi.1 : ℚ) + (pf.1 : ℚ) / (10 : ℚ) ^ pf.2)
      | _, _ => none

/-- The exponent part of a Python float literal: optional sign, digit run. -/
def parseExp (l : List Char) : Option Int :=
  match l with
  | '+' :: rest => (digitRun rest).map fun p => (p.1 : Int)
  | '-' :: rest => (digitRun rest).map fun p => -(p.1 : Int)
  | rest => (digitRun rest).map fun p => (p.1 : Int)

/-- A Python decimal float literal (no sign, no whitespace): mantissa with
optional `e`/`E` exponent. -/
def parseDecimal (l : List Char) : Option ℚ :=
  let sp := splitAtChar (fun c => c = 'e' || c = 'E') l
  let mp := splitAtChar (fun c => c = '.') sp.1
  match sp.2 with
  | none => parseMantissa mp.1 mp.2
  | some ex =>
    match parseMantissa mp.1 mp.2, parseExp ex with
    | some m, some e => some (m * (10 : ℚ) ^ e)
    | _, _ => none

/-- Python `float(s)` on a string: optional surrounding whitespace and sign,
then either a case-insensitive `inf`/`infinity`/`nan` spelling or a decimal
literal.  `none` models a raised `ValueError` (e.g. on `"abc"` or `""`). -/
def pyFloat (s : String) : Option PyFloat :=
  let t := stripChars s.toList
  let signed : Bool × List Char :=
    match t with
    | '+' :: rest => (false, rest)
    | '-' :: rest => (true, rest)
    | rest => (false, rest)
  let lower := signed.2.map Char.toLower
  if lower = "inf".toList ∨ lower = "infinity".toList then some (.inf signed.1)
  else if lower = "nan".toList then some .nan
  else (parseDecimal signed.2).map fun q => .num (if signed.1 then -q else q)

/-- Conversion `float(x or 0)` as applied to the result of `get_string_value` on line
317 of `main.py`: a null cell or the empty string is falsy in Python, so
`or` substitutes `0` and the conversion yields `0.0`; any other string goes
to `float()`, whose `ValueError` (`none` here) is not caught locally and
escapes to the extractor's outer exception handler. -/
def pyFloatOfStrOrZero : Cell → Option PyFloat
  | none => some (.num 0)
  | some "" => some (.num 0)
  | some s => pyFloat s

/-- Python `x or b` where `x` is a cell: a null cell and the empty string
are falsy and give `b` (used on line 354 for the output `zipCode`). -/
def pyOrStr (c : Cell) (b : String) : String :=
  match c with
  | none => b
  | some "" => b
  | some s => s

/-- Model of `get_value` (`main.py` lines 218–244): look up `field` in the header row
by name (`headers.index`), read the cell at that position in the data row,
and parse it with `int()`.  A name not present (`ValueError`), a position
past the end of the data row (`IndexError`), a null cell (`TypeError` from
`int(None)`), or a non-numeric string (`ValueError`) are all caught and
yield `0`; the function is total and never propagates an error. -/
def get_value (headers values : List Cell) (field : String) : Int :=
  match headers.findIdx? (fun c => c == some field) with
  | none => 0
  | some index =>
    match values[index]? with
    | none => 0
    | some none => 0
    | some (some s) => (pyInt s).getD 0

/-- Model of `get_string_value` (`main.py` lines 246–266): look up `field` in the
header row; a missing name or out-of-bounds position yields the empty
string, otherwise the raw cell is returned unchanged — including a null
cell, which Python returns as `None` rather than `""`. -/
def get_string_value (headers values : List Cell) (field : String) : Cell :=
  match headers.findIdx? (fun c => c == some field) with
  | none => some ""
  | some index =>
    match values[index]? with
    | none => some ""
    | some c => c

/-- The demographic record built by `fetch_census_demographics`
(`main.py` lines 305–355).  Field names match the keys of the Python
dictionary.  `name` is a cell because `get_string_value` can return a null
cell unchanged; every count field is an unbounded Python integer. -/
structure DemographicRecord where
  name : Cell
  population : Int
  medianIncome : Int
  medianAge : PyFloat
  raceWhite : Int
  raceBlack : Int
  raceNative : Int
  raceAsian : Int
  educationPopulation : Int
  educationBachelors : Int
  educationGraduate : Int
  medianHomeValue : Int
  medianRent : Int
  housingUnits : Int
  ownerOccupied : Int
  renterOccupied : Int
  ageUnder18 : Int
  age18to64 : Int
  age65plus : Int
  commuteTotal : Int
  commuteDrive : Int
  commutePublic : Int
  commuteWfh : Int
  zipCode : String
deriving DecidableEq

/-- The twelve sex/age bracket variables summed into `age65plus`
(`main.py` lines 283–288): males 65–85+ then females 65–85+. -/
def age65plus_keys : List String :=
  ["B01001_020E", "B01001_021E", "B01001_022E", "B01001_023E", "B01001_024E", "B01001_025E",
   "B01001_044E", "B01001_045E", "B01001_046E", "B01001_047E", "B01001_048E", "B01001_049E"]

/-- The body of `fetch_census_demographics`'s `try` block after the length
check (`main.py` lines 206–358): extract every field from the header and
data rows and assemble the record.  The only statement in this region that
can raise is the `float()` conversion for `medianAge` (line 317), whose
exception is caught by the function's outer handler and turned into `None`;
that path is the `none` branch here. -/
def extract_row (headers values : List Cell) (zip_code : String) :
    Option DemographicRecord :=
  let total_population := get_value headers values "B01003_001E"
  let age_under_18 := get_value headers values "B09001_001E"
  let age_65_plus := (age65plus_keys.map (get_value headers values)).sum
  let age_18_to_64 := total_population - age_under_18 - age_65_plus
  let education_graduate :=
    get_value headers values "B15003_023E" + get_value headers values "B15003_024E" +
      get_value headers values "B15003_025E"
  match pyFloatOfStrOrZero (get_string_value headers values "B01002_001E") with
  | none => none
  | some median_age =>
    some
      { name := get_string_value headers values "NAME"
        population := total_population
        medianIncome := get_value headers values "B19013_001E"
        medianAge := median_age
        raceWhite := get_value headers values "B02001_002E"
        raceBlack := get_value headers values "B02001_003E"
        raceNative := get_value headers values "B02001_004E"
        raceAsian := get_value headers values "B02001_005E"
        educationPopulation := get_value headers values "B15003_001E"
        educationBachelors := get_value headers values "B15003_022E"
        educationGraduate := education_graduate
        medianHomeValue := get_value headers values "B25077_001E"
        medianRent := get_value headers values "B25064_001E"
        housingUnits := get_value headers values "B25002_001E"
        ownerOccupied := get_value headers values "B25002_002E"
        renterOccupied := get_value headers values "B25002_003E"
        ageUnder18 := age_under_18
        age18to64 := age_18_to_64
        age65plus := age_65_plus
        commuteTotal := get_value headers values "B08301_001E"
        commuteDrive := get_value headers values "B08301_002E"
        commutePublic := get_value headers values "B08301_010E"
        commuteWfh := get_value headers values "B08301_021E"
        zipCode := pyOrStr (get_string_value headers values "zip code tabulation area") zip_code }

/-- Model of `fetch_census_demographics` (`main.py` lines 112–371) with the outbound
HTTP call made explicit: `resp = none` models a transport/HTTP-level failure
(`requests` exception, `raise_for_status`), a JSON-decode failure, or a
payload that is not an array of rows — all caught and collapsed to `None`.
Given rows, a payload shorter than 2 rows (`if not data or len(data) < 2`,
line 202; an empty list is also length `< 2`) yields `None`; otherwise the
header row `data[0]` and data row `data[1]` are extracted. -/
def fetch_census_demographics (resp : Option (List (List Cell)))
    (zip_code : String) : Option DemographicRecord :=
  match resp with
  | none => none
  | some data =>
    if data.length < 2 then none
    else extract_row (data.getD 0 []) (data.getD 1 []) zip_code

/-- The schema-constrained reply of the profile generation call
(`main.py` lines 481–500): three required fields. -/
structure ProfileJson where
  whoAreWe : String
  ourNeighborhood : List String
  socioeconomicTraits : List String
deriving DecidableEq

/-- One item of the schema-constrained doppelganger reply
(`main.py` lines 633–647): five required fields. -/
structure DoppelItem where
  zipCode : String
  city : String
  state : String
  similarityReason : String
  similarityPercentage : ℚ
deriving DecidableEq

/-- Result of `get_gemini_profile`: a parsed profile, or the error object
`{"error": msg}` built by its exception handler. -/
inductive ProfileOut where
  | ok (p : ProfileJson)
  | error (msg : String)
deriving DecidableEq

/-- Result of `find_doppelgangers`: a parsed candidate list, or the error
object `{"error": msg}` built by its exception handler. -/
inductive DoppelOut where
  | ok (items : List DoppelItem)
  | error (msg : String)
deriving DecidableEq

/-- The derived `higher_ed_percent` in `get_gemini_profile` (`main.py` lines 419–423):
`(educationBachelors + educationGraduate) / educationPopulation * 100` when
`educationPopulation > 0`, else `0` (the guard is a conditional expression,
so no division is ever attempted on a zero denominator). -/
def higher_ed_percent (data : DemographicRecord) : ℚ :=
  if data.educationPopulation > 0 then
    ((data.educationBachelors : ℚ) + (data.educationGraduate : ℚ)) /
      (data.educationPopulation : ℚ) * 100
  else 0

/-- The derived `owner_occupied_percent` in `get_gemini_profile` (lines 427–430). -/
def owner_occupied_percent (data : DemographicRecord) : ℚ :=
  if data.housingUnits > 0 then
    (data.ownerOccupied : ℚ) / (data.housingUnits : ℚ) * 100
  else 0

/-- The derived `wfh_percent` in `get_gemini_profile` (lines 434–437). -/
def wfh_percent (data : DemographicRecord) : ℚ :=
  if data.commuteTotal > 0 then
    (data.commuteWfh : ℚ) / (data.commuteTotal : ℚ) * 100
  else 0

/-- The derived `age_under_18_percent` in `get_gemini_profile` (lines 441–444). -/
def age_under_18_percent (data : DemographicRecord) : ℚ :=
  if data.population > 0 then
    (data.ageUnder18 : ℚ) / (data.population : ℚ) * 100
  else 0

/-- The derived `age_65_plus_percent` in `get_gemini_profile` (lines 445–448). -/
def age_65_plus_percent (data : DemographicRecord) : ℚ :=
  if data.population > 0 then
    (data.age65plus : ℚ) / (data.population : ℚ) * 100
  else 0

/-- The percentage `higher_ed_percent` as computed independently in `find_doppelgangers`
(`main.py` lines 589–593) — the same formula, not shared with the profile
generator. -/
def fd_higher_ed_percent (data : DemographicRecord) : ℚ :=
  if data.educationPopulation > 0 then
    ((data.educationBachelors : ℚ) + (data.educationGraduate : ℚ)) /
      (data.educationPopulation : ℚ) * 100
  else 0

/-- The percentage `owner_occupied_percent` as computed independently in
`find_doppelgangers` (lines 597–600). -/
def fd_owner_occupied_percent (data : DemographicRecord) : ℚ :=
  if data.housingUnits > 0 then
    (data.ownerOccupied : ℚ) / (data.housingUnits : ℚ) * 100
  else 0

/-- Model of `get_gemini_profile` (`main.py` lines 374–527).  The derived
percentages and the prompt/schema strings are computed before the `try`
block and cannot raise (each percentage is division-guarded, see
`higher_ed_percent` etc.; the rest is string interpolation over total
formatters).  The model call and the JSON parse of its reply are made
explicit: `modelCall = some p` is a successful, schema-conforming parsed
reply; `none` is any exception from the call or the parse, mapped by the
handler on lines 523–527 to the error object. -/
def get_gemini_profile (data : DemographicRecord)
    (modelCall : Option ProfileJson) : ProfileOut :=
  match data, modelCall with
  | _, some p => .ok p
  | _, none => .error "Failed to generate Gemini profile."

/-- Model of `find_doppelgangers` (`main.py` lines 530–673), analogously to
`get_gemini_profile`: percentages and prompt are exception-free, the model
call outcome is explicit, and any exception is mapped by the handler on
lines 669–673 to the error object. -/
def find_doppelgangers (data : DemographicRecord)
    (modelCall : Option (List DoppelItem)) : DoppelOut :=
  match data, modelCall with
  | _, some items => .ok items
  | _, none => .error "Failed to find doppelgangers."

/-- The combined payload assembled on lines 832–836 and used both as the
cached document and as the 200 response body. -/
structure CacheEntry where
  demographics : DemographicRecord
  profile : ProfileOut
  doppelgangers : DoppelOut
deriving DecidableEq

/-- The HTTP outcome of `/find-twin`.  Bodies are carried structurally;
`jsonify` serialises equal dictionaries to equal bytes (Flask sorts keys),
so equality of `Resp` values models byte-identical responses. -/
inductive Resp where
  | ok (body : CacheEntry)
  | badRequest
  | notFound (zip : String)
  | internalError
deriving DecidableEq

/-- The HTTP status code paired with each response shape
(lines 756, 767, 792, 807, 855, 869). -/
def statusOf : Resp → Nat
  | .ok _ => 200
  | .badRequest => 400
  | .notFound _ => 404
  | .internalError => 500

/-- The environment of one `/find-twin` request: the process-wide cache
client (`db`, `None` when Firestore initialisation failed at startup), the
current cache contents, whether the single cache read / cache write of this
request raises, and the outcome of each outbound call. -/
structure World where
  /-- Whether `db is not None`: the Firestore client initialised at process start
  (lines 48–53). -/
  cacheInit : Bool
  /-- Contents of the `zip_cache` collection keyed by document id. -/
  cache0 : String → Option CacheEntry
  /-- Whether `cache_ref.get()` (line 784) raises on this request. -/
  readFails : Bool
  /-- Whether `cache_ref.set(final_result)` (line 844) raises on this request. -/
  writeFails : Bool
  /-- The upstream statistics payload (argument to
  `fetch_census_demographics`). -/
  census : Option (List (List Cell))
  /-- Outcome of the profile model call (argument to
  `get_gemini_profile`). -/
  profileCall : Option ProfileJson
  /-- Outcome of the similarity model call (argument to
  `find_doppelgangers`). -/
  doppelCall : Option (List DoppelItem)

/-- A request's observable outcome: the HTTP response and the cache
contents after the request. -/
structure Outcome where
  resp : Resp
  cache : String → Option CacheEntry

/-- The cache-miss path of `handle_find_twin` (`main.py` lines 797–855):
fetch demographics (404 if `None`), run both generative sub-calls, assemble
`final_result`, then — only if `db` is available — attempt the cache write,
whose failure is caught, logged and swallowed (lines 841–850); the fresh
entry is returned with 200 in every non-404 case. -/
def miss_path (w : World) (zip_code : String) : Outcome :=
  match fetch_census_demographics w.census zip_code with
  | none => ⟨.notFound zip_code, w.cache0⟩
  | some demographics =>
    let profile := get_gemini_profile demographics w.profileCall
    let doppelgangers := find_doppelgangers demographics w.doppelCall
    let final_result : CacheEntry := ⟨demographics, profile, doppelgangers⟩
    if w.cacheInit then
      if w.writeFails then ⟨.ok final_result, w.cache0⟩
      else ⟨.ok final_result, fun z => if z = zip_code then some final_result else w.cache0 z⟩
    else ⟨.ok final_result, w.cache0⟩

/-- Model of `handle_find_twin` (`main.py` lines 686–869) for a POST request.
`zipReq = none` models a body that is missing, not JSON, or lacks the
`zip_code` key (400, line 767); otherwise `zipReq = some zip_code` with the
key's value already coerced by `str(...)` (line 771).  When `db` is
available the cache is consulted first: the read `cache_ref.get()` is *not*
wrapped in a local handler, so a read failure propagates to the catch-all
on lines 857–869 and yields the 500 response; a hit returns the stored
document verbatim with 200 (line 792); a miss falls through to
`miss_path`.  When `db` is unavailable the cache block is skipped
entirely. -/
def handle_find_twin (w : World) (zipReq : Option String) : Outcome :=
  match zipReq with
  | none => ⟨.badRequest, w.cache0⟩
  | some zip_code =>
    if w.cacheInit then
      if w.readFails then ⟨.internalError, w.cache0⟩
      else
        match w.cache0 zip_code with
        | some entry => ⟨.ok entry, w.cache0⟩
        | none => miss_path w zip_code
    else miss_path w zip_code

/-! ## Concrete payloads used by witnesses and counterexamples -/

/-- A well-formed upstream payload (header row plus one data row) realising
the spec's §8.7 scenario: population 20000, under-18 population 3000, a
single 65+ bracket of 5000, median income 150000, graduate-degree fields
100/40/10, median age 38, for ZIP 90210. -/
def demoRows : List (List Cell) :=
  [[some "B01003_001E", some "B09001_001E", some "B01001_020E", some "B19013_001E",
    some "B15003_023E", some "B15003_024E", some "B15003_025E", some "B01002_001E",
    some "NAME", some "zip code tabulation area"],
   [some "20000", some "3000", some "5000", some "150000",
    some "100", some "40", some "10", some "38",
    some "ZCTA5 90210", some "90210"]]

/-- The record `fetch_census_demographics` produces from `demoRows`. -/
def demoRec : DemographicRecord :=
  { name := some "ZCTA5 90210", population := 20000, medianIncome := 150000,
    medianAge := .num 38, raceWhite := 0, raceBlack := 0, raceNative := 0, raceAsian := 0,
    educationPopulation := 0, educationBachelors := 0, educationGraduate := 150,
    medianHomeValue := 0, medianRent := 0, housingUnits := 0, ownerOccupied := 0,
    renterOccupied := 0, ageUnder18 := 3000, age18to64 := 12000, age65plus := 5000,
    commuteTotal := 0, commuteDrive := 0, commutePublic := 0, commuteWfh := 0,
    zipCode := "90210" }

/-- An inconsistent upstream payload: total population 0 but under-18
population 5, making the derived 18–64 band negative. -/
def negRows : List (List Cell) :=
  [[some "B01003_001E", some "B09001_001E"], [some "0", some "5"]]

/-- A payload whose three graduate-degree source fields are all zero. -/
def zeroRows : List (List Cell) :=
  [[some "B15003_023E", some "B15003_024E", some "B15003_025E"],
   [some "0", some "0", some "0"]]

/-- The all-zero demographic record. -/
def zeroRec : DemographicRecord :=
  { name := some "", population := 0, medianIncome := 0, medianAge := .num 0,
    raceWhite := 0, raceBlack := 0, raceNative := 0, raceAsian := 0,
    educationPopulation := 0, educationBachelors := 0, educationGraduate := 0,
    medianHomeValue := 0, medianRent := 0, housingUnits := 0, ownerOccupied := 0,
    renterOccupied := 0, ageUnder18 := 0, age18to64 := 0, age65plus := 0,
    commuteTotal := 0, commuteDrive := 0, commutePublic := 0, commuteWfh := 0,
    zipCode := "" }

/-- A sample schema-conforming profile reply. -/
def profile0 : ProfileJson :=
  { whoAreWe := "A quiet suburb.", ourNeighborhood := ["fact"], socioeconomicTraits := ["fact"] }

/-! ## Helper lemmas -/

/-- Every field of a record produced by `extract_row` equals the
corresponding extraction expression of the source (lines 273–355). -/
theorem extract_row_fields (headers values : List Cell) (zip_code : String)
    (r : DemographicRecord) (h : extract_row headers values zip_code = some r) :
    r.population = get_value headers values "B01003_001E" ∧
    r.ageUnder18 = get_value headers values "B09001_001E" ∧
    r.age65plus = (age65plus_keys.map (get_value headers values)).sum ∧
    r.age18to64 = r.population - r.ageUnder18 - r.age65plus ∧
    r.educationGraduate =
      get_value headers values "B15003_023E" + get_value headers values "B15003_024E" +
        get_value headers values "B15003_025E" := by
  simp only [extract_row] at h
  split at h
  · exact absurd h (by simp)
  · cases h
    exact ⟨rfl, rfl, rfl, rfl, rfl⟩

/-- The extractor body `extract_row` fails exactly when the `float()` conversion of the raw
`medianAge` cell raises. -/
theorem extract_row_eq_none_iff (headers values : List Cell) (zip_code : String) :
    extract_row headers values zip_code = none ↔
      pyFloatOfStrOrZero (get_string_value headers values "B01002_001E") = none := by
  simp only [extract_row]
  cases h : pyFloatOfStrOrZero (get_string_value headers values "B01002_001E") <;> simp

/-- A successful `fetch_census_demographics` factors through `extract_row`
on the first two rows of the payload. -/
theorem fetch_eq_some (resp : Option (List (List Cell))) (zip_code : String)
    (r : DemographicRecord) (h : fetch_census_demographics resp zip_code = some r) :
    ∃ data, resp = some data ∧ ¬ data.length < 2 ∧
      extract_row (data.getD 0 []) (data.getD 1 []) zip_code = some r := by
  cases resp with
  | none => exact absurd h (by simp [fetch_census_demographics])
  | some data =>
    simp only [fetch_census_demographics] at h
    split at h
    · exact absurd h (by simp)
    · exact ⟨data, rfl, by assumption, h⟩

/-- When the cache is unavailable, or available with a working read that
misses, the handler takes the miss path. -/
theorem handle_find_twin_miss (w : World) (zip_code : String)
    (hcache : w.cacheInit = true → w.readFails = false ∧ w.cache0 zip_code = none) :
    handle_find_twin w (some zip_code) = miss_path w zip_code := by
  cases hc : w.cacheInit with
  | false => simp [handle_find_twin, hc]
  | true =>
    obtain ⟨hr, hm⟩ := hcache hc
    simp [handle_find_twin, hc, hr, hm]

/-- The miss path's response when extraction succeeds: the fresh combined
entry with status 200, whatever the cache flags. -/
theorem miss_path_resp (w : World) (zip_code : String) (d : DemographicRecord)
    (hfetch : fetch_census_demographics w.census zip_code = some d) :
    (miss_path w zip_code).resp =
      .ok ⟨d, get_gemini_profile d w.profileCall, find_doppelgangers d w.doppelCall⟩ := by
  simp only [miss_path, hfetch]
  split
  · split <;> rfl
  · rfl

/-- The miss path's cache effect when extraction succeeds and the store is
available with a working write: the fresh entry is stored under the ZIP
key. -/
theorem miss_path_cache (w : World) (zip_code : String) (d : DemographicRecord)
    (hfetch : fetch_census_demographics w.census zip_code = some d)
    (hinit : w.cacheInit = true) (hw : w.writeFails = false) :
    (miss_path w zip_code).cache zip_code =
      some ⟨d, get_gemini_profile d w.profileCall, find_doppelgangers d w.doppelCall⟩ := by
  simp [miss_path, hfetch, hinit, hw]

/-- When the store is unavailable or the write raises, the miss path leaves
the cache untouched. -/
theorem miss_path_cache_unchanged (w : World) (zip_code : String)
    (h : w.cacheInit = false ∨ w.writeFails = true) :
    (miss_path w zip_code).cache = w.cache0 := by
  rcases h with h | h <;>
    simp only [miss_path] <;> split <;> simp [h]

/-! ## Claims -/

/-- C1 (counterexample): a payload with a header row and one data row whose
raw `B01002_001E` (median age) cell is the non-numeric string `"abc"`.
Contrary to the claim, the field does not default to `0`: the `float()`
call on line 317 raises, the extractor's outer handler catches it, and
extraction collapses to `null`. -/
theorem medianAge_nonnumeric_not_defaulted :
    fetch_census_demographics (some [[some "B01002_001E"], [some "abc"]]) "90210" = none := by
  decide

/-- C1 (amended): integer fields extracted by `get_value` default to `0`
when the field name is absent from the header row, the data row is too
short, the cell is null, or the cell is a non-numeric string, and string
fields default to `""` when the name is absent or the row too short — none
of these propagate an error.  For `medianAge`, however, only an absent
field, a null cell or an empty string defaults to `0` (via `x or 0`): a
non-numeric non-empty raw value makes `extract_row` — and hence the whole
extraction — return `null` rather than defaulting the field. -/
theorem single_field_defaults (headers values : List Cell) (field zip_code : String) :
    (headers.findIdx? (fun c => c == some field) = none →
       get_value headers values field = 0 ∧
       get_string_value headers values field = some "") ∧
    (∀ i, headers.findIdx? (fun c => c == some field) = some i →
       (values[i]? = none →
          get_value headers values field = 0 ∧
          get_string_value headers values field = some "") ∧
       (values[i]? = some none → get_value headers values field = 0) ∧
       (∀ s, values[i]? = some (some s) → pyInt s = none →
          get_value headers values field = 0)) ∧
    (extract_row headers values zip_code = none ↔
       pyFloatOfStrOrZero (get_string_value headers values "B01002_001E") = none) := by
  refine ⟨fun hidx => ?_, fun i hidx => ⟨fun hv => ?_, fun hv => ?_, fun s hv hp => ?_⟩,
    extract_row_eq_none_iff headers values zip_code⟩
  · simp [get_value, get_string_value, hidx]
  · simp [get_value, get_string_value, hidx, hv]
  · simp [get_value, hidx, hv]
  · simp [get_value, hidx, hv, hp]

/-- C1 (witness for the amended theorem): a field present in the header but
holding the non-numeric string `"xy"` extracts as `0`. -/
theorem single_field_defaults_witness :
    get_value [some "A"] [some "xy"] "A" = 0 :=
  ((single_field_defaults [some "A"] [some "xy"] "A" "90210").2.1 0
    (by decide)).2.2 "xy" (by decide) (by decide)

/-- C3: the three age bands of every record the extractor produces
partition the population exactly — `age18to64` is defined on line 292 as
`population - ageUnder18 - age65plus` over unbounded integers, so the
identity holds even on inconsistent source data. -/
theorem age_bands_partition (resp : Option (List (List Cell))) (zip_code : String)
    (r : DemographicRecord) (h : fetch_census_demographics resp zip_code = some r) :
    r.ageUnder18 + r.age18to64 + r.age65plus = r.population := by
  obtain ⟨data, -, -, hx⟩ := fetch_eq_some resp zip_code r h
  obtain ⟨-, -, -, h4, -⟩ := extract_row_fields _ _ _ _ hx
  rw [h4]; ring

/-- C3 (witness): the partition identity holds on the record extracted from
the concrete payload `demoRows` (3000 + 12000 + 5000 = 20000). -/
theorem age_bands_partition_witness :
    demoRec.ageUnder18 + demoRec.age18to64 + demoRec.age65plus = demoRec.population :=
  age_bands_partition (some demoRows) "90210" demoRec (by decide)

/-- C4: for every extracted record, `age65plus` is the sum of exactly the
twelve male and female 65-and-up bracket fields (lines 283–288), and
`age18to64` is `population - ageUnder18 - age65plus` with no clamping
(line 292); in particular, on the inconsistent payload `negRows` the
derived `age18to64` is the negative value `-5`. -/
theorem age65plus_twelve_fields_no_clamping :
    (∀ headers values zip_code r, extract_row headers values zip_code = some r →
       r.age65plus =
         get_value headers values "B01001_020E" + get_value headers values "B01001_021E" +
           get_value headers values "B01001_022E" + get_value headers values "B01001_023E" +
           get_value headers values "B01001_024E" + get_value headers values "B01001_025E" +
           get_value headers values "B01001_044E" + get_value headers values "B01001_045E" +
           get_value headers values "B01001_046E" + get_value headers values "B01001_047E" +
           get_value headers values "B01001_048E" + get_value headers values "B01001_049E" ∧
       r.age18to64 = r.population - r.ageUnder18 - r.age65plus) ∧
    (fetch_census_demographics (some negRows) "00000").map (fun r => r.age18to64) =
      some (-5) := by
  constructor
  · intro headers values zip_code r h
    obtain ⟨-, -, h3, h4, -⟩ := extract_row_fields _ _ _ _ h
    refine ⟨?_, h4⟩
    rw [h3]
    simp [age65plus_keys]
    ring
  · decide

/-- C4 (witness): on the concrete payload `demoRows` the twelve-field sum
and the unclamped subtraction hold of the extracted record. -/
theorem age65plus_twelve_fields_witness :
    demoRec.age18to64 = demoRec.population - demoRec.ageUnder18 - demoRec.age65plus :=
  (age65plus_twelve_fields_no_clamping.1 (demoRows.getD 0 []) (demoRows.getD 1 [])
    "90210" demoRec (by decide)).2

/-- C5: for every extracted record, `educationGraduate` is exactly the sum
of the master's, professional and doctorate source fields (line 299); on an
all-zero payload the sum — and hence the field — is `0`. -/
theorem education_graduate_three_fields :
    (∀ headers values zip_code r, extract_row headers values zip_code = some r →
       r.educationGraduate =
         get_value headers values "B15003_023E" + get_value headers values "B15003_024E" +
           get_value headers values "B15003_025E") ∧
    (fetch_census_demographics (some zeroRows) "00000").map (fun r => r.educationGraduate) =
      some 0 := by
  constructor
  · intro headers values zip_code r h
    exact (extract_row_fields _ _ _ _ h).2.2.2.2
  · decide

/-- C5 (witness): on `demoRows` the extracted `educationGraduate` is the
sum of the three source cells (100 + 40 + 10 = 150). -/
theorem education_graduate_three_fields_witness :
    demoRec.educationGraduate =
      get_value (demoRows.getD 0 []) (demoRows.getD 1 []) "B15003_023E" +
        get_value (demoRows.getD 0 []) (demoRows.getD 1 []) "B15003_024E" +
        get_value (demoRows.getD 0 []) (demoRows.getD 1 []) "B15003_025E" :=
  education_graduate_three_fields.1 (demoRows.getD 0 []) (demoRows.getD 1 [])
    "90210" demoRec (by decide)

/-- C6: extraction returns `null` exactly when the upstream call fails at
the transport/HTTP level (`resp = none`, which also covers a reply that is
not a JSON array of rows), the payload has fewer than 2 rows, or the one
possible parsing exception — the `float()` conversion of the raw
`medianAge` cell — is raised; all cases are collapsed to the very same
`none`, so the caller cannot distinguish them. -/
theorem extraction_null_cases (resp : Option (List (List Cell))) (zip_code : String) :
    fetch_census_demographics resp zip_code = none ↔
      resp = none ∨
        ∃ data, resp = some data ∧
          (data.length < 2 ∨
            pyFloatOfStrOrZero
              (get_string_value (data.getD 0 []) (data.getD 1 []) "B01002_001E") = none) := by
  cases resp with
  | none => simp [fetch_census_demographics]
  | some data =>
    simp only [fetch_census_demographics]
    split
    · simp_all
    · simp only [extract_row_eq_none_iff]
      simp_all

/-- C6 (witness): a header-only payload (one row) collapses to `null`. -/
theorem extraction_null_cases_witness :
    fetch_census_demographics (some [[some "NAME"]]) "12345" = none :=
  (extraction_null_cases (some [[some "NAME"]]) "12345").mpr
    (Or.inr ⟨[[some "NAME"]], rfl, Or.inl (by decide)⟩)

/-- C10: numeric fields use Python's strict `int()` string parsing: if the
cell under the looked-up field is a string that is not a valid integer
literal — `pyInt s = none`, as for the decimal string `"25.5"` — the field
extracts as `0`; a fractional value is never rounded or truncated (the
concrete result is `0`, not `25` or `26`). -/
theorem strict_integer_parsing (headers values : List Cell) (field : String) :
    (∀ i s, headers.findIdx? (fun c => c == some field) = some i →
       values[i]? = some (some s) → pyInt s = none →
       get_value headers values field = 0) ∧
    pyInt "25.5" = none ∧
    get_value [some "B01002_001E"] [some "25.5"] "B01002_001E" = 0 := by
  refine ⟨fun i s hidx hv hp => ?_, by decide, by decide⟩
  simp [get_value, hidx, hv, hp]

/-- C10 (witness): the universal part applied to a decimal-formatted
cell. -/
theorem strict_integer_parsing_witness :
    get_value [some "X"] [some "7.9"] "X" = 0 :=
  (strict_integer_parsing [some "X"] [some "7.9"] "X").1 0 "7.9"
    (by decide) (by decide) (by decide)

/-- C8: every derived percentage computed for the prompts is guarded by a
conditional expression, so a zero denominator yields `0` and no division by
zero is ever attempted — for `educationPopulation` in both the profile
generator and the similarity finder, for `housingUnits` in both, for
`commuteTotal`, and for `population` (the latter two are computed only in
the profile generator). -/
theorem derived_percentage_guards (data : DemographicRecord) :
    (data.educationPopulation = 0 →
       higher_ed_percent data = 0 ∧ fd_higher_ed_percent data = 0) ∧
    (data.housingUnits = 0 →
       owner_occupied_percent data = 0 ∧ fd_owner_occupied_percent data = 0) ∧
    (data.commuteTotal = 0 → wfh_percent data = 0) ∧
    (data.population = 0 →
       age_under_18_percent data = 0 ∧ age_65_plus_percent data = 0) := by
  refine ⟨fun h => ?_, fun h => ?_, fun h => ?_, fun h => ?_⟩ <;>
    simp [higher_ed_percent, fd_higher_ed_percent, owner_occupied_percent,
      fd_owner_occupied_percent, wfh_percent, age_under_18_percent,
      age_65_plus_percent, h]

/-- C8 (witness): the all-zero record yields percentage `0` in both
components. -/
theorem derived_percentage_guards_witness :
    higher_ed_percent zeroRec = 0 ∧ fd_higher_ed_percent zeroRec = 0 ∧
      wfh_percent zeroRec = 0 :=
  ⟨((derived_percentage_guards zeroRec).1 rfl).1,
   ((derived_percentage_guards zeroRec).1 rfl).2,
   (derived_percentage_guards zeroRec).2.2.1 rfl⟩

/-- C7: when a generative sub-call throws on a request that reaches the
miss path with a successful extraction, the corresponding sub-field of the
200 response body is exactly the error object of lines 527 / 673, the other
sub-field is exactly what its own sub-call produced on the same record
(failures are isolated per call), the status is still 200, and — when the
store is available with a working write — the degraded combined entry is
itself cached under the ZIP key. -/
theorem gemini_failures_isolated (w : World) (zip_code : String) (d : DemographicRecord)
    (hcache : w.cacheInit = true → w.readFails = false ∧ w.cache0 zip_code = none)
    (hfetch : fetch_census_demographics w.census zip_code = some d) :
    (w.profileCall = none →
       (handle_find_twin w (some zip_code)).resp =
         .ok ⟨d, .error "Failed to generate Gemini profile.",
              find_doppelgangers d w.doppelCall⟩) ∧
    (w.doppelCall = none →
       (handle_find_twin w (some zip_code)).resp =
         .ok ⟨d, get_gemini_profile d w.profileCall,
              .error "Failed to find doppelgangers."⟩) ∧
    statusOf (handle_find_twin w (some zip_code)).resp = 200 ∧
    (w.cacheInit = true → w.writeFails = false →
       (handle_find_twin w (some zip_code)).cache zip_code =
         some ⟨d, get_gemini_profile d w.profileCall,
               find_doppelgangers d w.doppelCall⟩) := by
  rw [handle_find_twin_miss w zip_code hcache]
  refine ⟨fun hp => ?_, fun hd => ?_, ?_, fun hinit hw => ?_⟩
  · rw [miss_path_resp w zip_code d hfetch, hp]; rfl
  · rw [miss_path_resp w zip_code d hfetch, hd]; rfl
  · rw [miss_path_resp w zip_code d hfetch]; rfl
  · exact miss_path_cache w zip_code d hfetch hinit hw

/-- A concrete world for the C7 witness: cache available and empty, working
read and write, a good upstream payload, a throwing profile call and a
successful (empty-list) similarity call. -/
def w7 : World :=
  { cacheInit := true, cache0 := fun _ => none, readFails := false, writeFails := false,
    census := some demoRows, profileCall := none, doppelCall := some [] }

/-- C7 (witness): on `w7` the response embeds the exact profile error
object next to the untouched similarity result. -/
theorem gemini_failures_isolated_witness :
    (handle_find_twin w7 (some "90210")).resp =
      .ok ⟨demoRec, .error "Failed to generate Gemini profile.",
           find_doppelgangers demoRec w7.doppelCall⟩ :=
  (gemini_failures_isolated w7 "90210" demoRec (fun _ => ⟨rfl, rfl⟩) (by decide)).1 rfl

/-- A concrete world for the C2 counterexample: the cache store initialised,
the cache empty, but this request's single cache read raises; everything
downstream would succeed. -/
def wReadFail : World :=
  { cacheInit := true, cache0 := fun _ => none, readFails := true, writeFails := false,
    census := some demoRows, profileCall := some profile0, doppelCall := some [] }

/-- C2 (counterexample): a failing cache read does *not* silently degrade
to a cache miss — `cache_ref.get()` on line 784 is not locally handled, so
the exception reaches the catch-all of lines 857–869 and the request
returns 500, while the very same request with the cache store absent
returns 200 with the fresh entry.  The HTTP outcome is altered. -/
theorem cache_read_failure_alters_outcome :
    (handle_find_twin wReadFail (some "90210")).resp = .internalError ∧
    statusOf (handle_find_twin wReadFail (some "90210")).resp = 500 ∧
    (handle_find_twin { wReadFail with cacheInit := false } (some "90210")).resp =
      .ok ⟨demoRec, .ok profile0, .ok []⟩ := by
  refine ⟨rfl, rfl, by decide⟩

/-- C2 (amended): an uninitialised store degrades every request to the
plain miss path with no cache effect; a failing cache *write* is swallowed,
leaving the response identical to the successful-write run and the cache
untouched; but a failing cache *read* aborts the request with the 500
internal-error response. -/
theorem cache_degradation_amended (w : World) (zip_code : String) :
    (w.cacheInit = false →
       handle_find_twin w (some zip_code) = miss_path w zip_code ∧
       (handle_find_twin w (some zip_code)).cache = w.cache0) ∧
    (w.cacheInit = true → w.readFails = false → w.cache0 zip_code = none →
     w.writeFails = true →
       (handle_find_twin w (some zip_code)).resp =
         (handle_find_twin { w with writeFails := false } (some zip_code)).resp ∧
       (handle_find_twin w (some zip_code)).cache = w.cache0) ∧
    (w.cacheInit = true → w.readFails = true →
       handle_find_twin w (some zip_code) = ⟨.internalError, w.cache0⟩) := by
  refine ⟨fun hc => ?_, fun hc hr hm hw => ?_, fun hc hr => ?_⟩
  · have h := handle_find_twin_miss w zip_code (fun h => absurd h (by simp [hc]))
    exact ⟨h, by rw [h]; exact miss_path_cache_unchanged w zip_code (Or.inl hc)⟩
  · have h := handle_find_twin_miss w zip_code (fun _ => ⟨hr, hm⟩)
    have h' := handle_find_twin_miss { w with writeFails := false } zip_code
      (fun _ => ⟨hr, hm⟩)
    rw [h, h']
    constructor
    · cases hfetch : fetch_census_demographics w.census zip_code with
      | none => simp [miss_path, hfetch]
      | some d =>
        rw [miss_path_resp w zip_code d hfetch,
          miss_path_resp { w with writeFails := false } zip_code d hfetch]
    · exact miss_path_cache_unchanged w zip_code (Or.inr hw)
  · simp [handle_find_twin, hc, hr]

/-- C2 (witness for the amended theorem): with the store uninitialised the
request is served by the plain miss path, and with a read failure it is the
500 outcome. -/
theorem cache_degradation_amended_witness :
    handle_find_twin { wReadFail with cacheInit := false } (some "90210") =
      miss_path { wReadFail with cacheInit := false } "90210" ∧
    handle_find_twin wReadFail (some "90210") = ⟨.internalError, wReadFail.cache0⟩ :=
  ⟨((cache_degradation_amended { wReadFail with cacheInit := false } "90210").1 rfl).1,
   (cache_degradation_amended wReadFail "90210").2.2 rfl rfl⟩

/-- A concrete world for the C9 witness: empty available cache, working
read and write, good upstream payload, both model calls succeeding. -/
def w9 : World :=
  { cacheInit := true, cache0 := fun _ => none, readFails := false, writeFails := false,
    census := some demoRows, profileCall := some profile0, doppelCall := some [] }

/-- The entry the first C9 request computes and caches. -/
def entry9 : CacheEntry := ⟨demoRec, .ok profile0, .ok []⟩

/-- C9: with the store available and this request's read and write working,
a successful lookup persists its fresh entry under the ZIP-code key, and a
second request for the same ZIP against the resulting cache — in an
arbitrary world `w2` whose upstream and model outcomes may differ, since a
hit performs no re-fetch and no re-validation — returns the stored entry
verbatim, so the two responses are identical (equal `Resp` values, i.e.
byte-identical bodies under the deterministic serialiser). -/
theorem lookup_idempotent (w w2 : World) (zip_code : String) (e : CacheEntry)
    (h1 : w.cacheInit = true) (h2 : w.readFails = false) (h3 : w.writeFails = false)
    (h4 : w2.cacheInit = true) (h5 : w2.readFails = false)
    (hc : w2.cache0 = (handle_find_twin w (some zip_code)).cache)
    (hok : (handle_find_twin w (some zip_code)).resp = .ok e) :
    (handle_find_twin w (some zip_code)).cache zip_code = some e ∧
    (handle_find_twin w2 (some zip_code)).resp =
      (handle_find_twin w (some zip_code)).resp := by
  have hstore : (handle_find_twin w (some zip_code)).cache zip_code = some e := by
    simp only [handle_find_twin, h1, h2] at hok ⊢
    simp only [if_true, Bool.false_eq_true, if_false] at hok ⊢
    cases hhit : w.cache0 zip_code with
    | some entry =>
      simp only [hhit] at hok ⊢
      cases hok
      rfl
    | none =>
      simp only [hhit] at hok ⊢
      cases hfetch : fetch_census_demographics w.census zip_code with
      | none => simp [miss_path, hfetch] at hok
      | some d =>
        rw [miss_path_resp w zip_code d hfetch] at hok
        cases hok
        exact miss_path_cache w zip_code d hfetch h1 h3
  refine ⟨hstore, ?_⟩
  rw [hok]
  simp only [handle_find_twin, h4, h5]
  simp only [if_true, Bool.false_eq_true, if_false]
  rw [hc, hstore]

/-- The world of the second C9 request: the cache left by the first
request, with the upstream now unavailable — a hit performs no re-fetch,
so this must not matter. -/
def w9b : World :=
  { cacheInit := true, cache0 := (handle_find_twin w9 (some "90210")).cache,
    readFails := false, writeFails := false,
    census := none, profileCall := some profile0, doppelCall := some [] }

/-- C9 (witness): a concrete first request on an empty cache followed by a
second request against the updated cache, with the upstream unavailable on
the second request, still returns the identical 200 body. -/
theorem lookup_idempotent_witness :
    (handle_find_twin w9 (some "90210")).cache "90210" = some entry9 ∧
    (handle_find_twin w9b (some "90210")).resp =
      (handle_find_twin w9 (some "90210")).resp :=
  lookup_idempotent w9 w9b "90210" entry9 rfl rfl rfl rfl rfl rfl (by decide)
